import Mathlib

/-!
Shallow embedding of the session-lifecycle, rating-aggregation and
quiz-scoring logic of the mentorship-matching application.

Conventions of the embedding:
* MongoDB ObjectIds are represented as `Nat`.
* JavaScript `Date` values are milliseconds since the epoch, as `Int`
  (JS date subtraction yields this number directly).
* JS numeric arithmetic on the small integers and simple fractions that
  occur here is exact, so it is modelled over `ℚ` with `jsRound`
  capturing `Math.round` (round half toward positive infinity).
* Absent document fields (`undefined`) are `Option.none`; JS truthiness
  tests on a numeric field (`if (x.rating)`) are true exactly when the
  field is present and non-zero, on a `Date` field exactly when present.
* Each Express route handler becomes a function from its inputs and the
  documents it reads to a `RouteResult`: the HTTP status code of the
  response together with the final state of the touched documents
  (unchanged when the handler returns before any write).
* Representation-level validators (`isMongoId`, `isISO8601`) are
  absorbed by the types `Nat` / `Int`; value-level validators
  (`isInt {min, max}`, `isIn [...]`) are modelled as explicit guards.
-/

namespace Gem18

/-- JS `Math.round`: round half toward positive infinity. -/
def jsRound (q : ℚ) : ℤ := Int.floor (q + 1/2)

/-- JS `String.prototype.trim`: strip leading and trailing whitespace
(modelled over the character list so that it evaluates in the kernel). -/
def jsTrim (s : String) : String :=
  String.mk (((s.data.dropWhile fun c => c.isWhitespace).reverse.dropWhile
    fun c => c.isWhitespace).reverse)

/-- JS truthiness of an optional numeric field: present and non-zero. -/
def numTruthy : Option Nat → Bool
  | none => false
  | some n => n != 0

/-- JS truthiness of an optional `Int`-valued numeric field. -/
def intTruthy : Option Int → Bool
  | none => false
  | some n => n != 0

/-- Result of one route handler: HTTP status code plus the final state of
the documents the handler touches. -/
structure RouteResult (σ : Type) where
  code : Nat
  state : σ
  deriving Repr, DecidableEq

/-! ## Data model (src/models) -/

/-- `verification.status` enum of the Mentor schema. -/
inductive VerificationStatus
  | pending
  | approved
  | rejected
  deriving Repr, DecidableEq

/-- One embedded review in `mentor.ratings.reviews`. -/
structure Review where
  studentId : Nat
  rating : Nat
  comment : Option String
  date : Int
  deriving Repr, DecidableEq

/-- `mentor.ratings`: derived average, derived count, embedded reviews. -/
structure Ratings where
  average : ℚ
  totalReviews : Nat
  reviews : List Review
  deriving Repr, DecidableEq

/-- `mentor.stats` (the fields `updateStats` touches). -/
structure MentorStats where
  totalSessions : Nat
  totalHours : ℚ
  deriving Repr, DecidableEq

/-- Mentor document (fields the modelled routes read or write). -/
structure Mentor where
  id : Nat
  userId : Nat
  verificationStatus : VerificationStatus
  ratings : Ratings
  stats : MentorStats
  deriving Repr, DecidableEq

/-- Session `status` enum. -/
inductive SessionStatus
  | scheduled
  | confirmed
  | inProgress
  | completed
  | cancelled
  | noShow
  deriving Repr, DecidableEq

/-- One side of `session.feedback`. -/
structure Feedback where
  rating : Option Nat
  comment : Option String
  submittedAt : Option Int
  deriving Repr, DecidableEq

/-- `session.cancellation` record. -/
structure Cancellation where
  cancelledBy : String
  reason : String
  cancelledAt : Int
  deriving Repr, DecidableEq

/-- Session document (fields the modelled routes read or write). -/
structure Session where
  id : Nat
  studentId : Nat
  mentorId : Nat
  title : String
  description : String
  scheduledDate : Int
  duration : Nat
  status : SessionStatus
  sessionType : String
  meetingLink : String
  meetingId : String
  topics : List String
  notesMentor : Option String
  notesAdmin : Option String
  feedbackStudent : Feedback
  feedbackMentor : Feedback
  cancellation : Option Cancellation
  actualStartTime : Option Int
  actualEndTime : Option Int
  actualDuration : Option Int
  deriving Repr, DecidableEq

/-- Student profile document: `_id` of the profile and the owning
User's `_id` (`userId`). -/
structure StudentProfile where
  id : Nat
  userId : Nat
  deriving Repr, DecidableEq

/-! ## Rating aggregation (src/models/Mentor.js) -/

/-- `Math.round(x * 10) / 10`: round to one decimal place. -/
def round1 (q : ℚ) : ℚ := (jsRound (q * 10) : ℚ) / 10

/-- `mentorSchema.methods.calculateAverageRating`: 0 on an empty review
list, otherwise the mean of the review ratings rounded to 1 decimal. -/
def calculateAverageRating (m : Mentor) : ℚ :=
  if m.ratings.reviews.length = 0 then 0
  else
    round1 (((m.ratings.reviews.map (fun r => (r.rating : ℚ))).sum) /
      (m.ratings.reviews.length : ℚ))

/-- `mentorSchema.methods.updateStats`: one more session, duration
(minutes) folded into `totalHours`. -/
def updateStats (m : Mentor) (sessionDuration : ℚ) : Mentor :=
  { m with stats :=
    { totalSessions := m.stats.totalSessions + 1
      totalHours := m.stats.totalHours + sessionDuration / 60 } }

/-! ## Student-side feedback route
(`POST /sessions/:sessionId/feedback`, src/setup-deployment.js) -/

/-- `express-validator` chain of the feedback routes:
`rating` an integer in 1..5, `comment` optional but non-empty after
trimming when supplied. -/
def feedbackValidation (rating : Nat) (comment : Option String) : Bool :=
  (1 ≤ rating && rating ≤ 5) &&
    (match comment with
     | none => true
     | some c => jsTrim c != "")

/-- Student submits feedback on a session (setup-deployment.js route).
Inputs: the session looked up by id, the mentor looked up by
`session.mentorId` (possibly absent), the requesting Student profile id
(`req.student._id`), the body, and the current time.  Returns the HTTP
code and the final (session, mentor) pair. -/
def submitStudentFeedback (session : Session) (mentor : Option Mentor)
    (studentId : Nat) (rating : Nat) (comment : Option String)
    (now : Int) : RouteResult (Session × Option Mentor) :=
  if ¬ feedbackValidation rating comment then ⟨400, (session, mentor)⟩
  else if session.studentId ≠ studentId then ⟨403, (session, mentor)⟩
  else if session.status ≠ SessionStatus.completed then
    ⟨400, (session, mentor)⟩
  else if numTruthy session.feedbackStudent.rating then
    ⟨400, (session, mentor)⟩
  else
    let session' := { session with feedbackStudent :=
      { rating := some rating, comment := comment, submittedAt := some now } }
    match mentor with
    | none => ⟨200, (session', none)⟩
    | some m =>
      let pushed : Mentor := { m with ratings := { m.ratings with
        reviews := m.ratings.reviews ++
          [{ studentId := studentId, rating := rating, comment := comment
             date := now }] } }
      let m' : Mentor := { pushed with ratings := { pushed.ratings with
        average := calculateAverageRating pushed
        totalReviews := pushed.ratings.reviews.length } }
      ⟨200, (session', some m')⟩

/-! ## Mentor-side feedback route
(`POST /sessions/:sessionId/feedback`, src/routes/mentors.js) -/

/-- Mentor submits feedback on a session (routes/mentors.js route).
`mentorId` is `req.mentor._id` from the auth middleware. -/
def submitMentorFeedback (session : Session) (mentorId : Nat)
    (rating : Nat) (comment : Option String) (now : Int) :
    RouteResult Session :=
  if ¬ feedbackValidation rating comment then ⟨400, session⟩
  else if session.mentorId ≠ mentorId then ⟨403, session⟩
  else if session.status ≠ SessionStatus.completed then ⟨400, session⟩
  else if numTruthy session.feedbackMentor.rating then ⟨400, session⟩
  else
    ⟨200, { session with feedbackMentor :=
      { rating := some rating, comment := comment
        submittedAt := some now } }⟩

/-! ## Booking route (`POST /sessions`, src/setup-deployment.js) -/

/-- `express-validator` chain of the booking route (value-level parts):
non-empty title and description after trimming, integer duration in
30..180, session type in the allowed set. -/
def bookingValidation (title description : String) (duration : Nat)
    (sessionType : String) : Bool :=
  jsTrim title != "" && jsTrim description != "" &&
    (30 ≤ duration && duration ≤ 180) &&
    (sessionType == "video_call" || sessionType == "chat" ||
      sessionType == "email" || sessionType == "phone")

/-- The conflict query of the booking route: some stored session of this
student has status `scheduled` or `confirmed` and a scheduled date in
the half-open window [start, start + duration minutes). -/
def hasConflict (store : List Session) (studentId : Nat) (start : Int)
    (duration : Nat) : Bool :=
  store.any (fun s =>
    s.studentId == studentId &&
    (start ≤ s.scheduledDate &&
      s.scheduledDate < start + (duration : Int) * 60000) &&
    (s.status == SessionStatus.scheduled ||
      s.status == SessionStatus.confirmed))

/-- A freshly constructed Session document after the schema defaults and
the pre-save hook (a new video-call session with no meeting link gets a
generated `mentorship-<id>` meeting identifier). -/
def mkSession (newId studentId mentorId : Nat) (title description : String)
    (scheduledDate : Int) (duration : Nat) (sessionType : String)
    (topics : List String) : Session :=
  let base : Session :=
    { id := newId, studentId := studentId, mentorId := mentorId
      title := title, description := description
      scheduledDate := scheduledDate, duration := duration
      status := SessionStatus.scheduled, sessionType := sessionType
      meetingLink := "", meetingId := "", topics := topics
      notesMentor := none, notesAdmin := none
      feedbackStudent := { rating := none, comment := none, submittedAt := none }
      feedbackMentor := { rating := none, comment := none, submittedAt := none }
      cancellation := none, actualStartTime := none, actualEndTime := none
      actualDuration := none }
  if sessionType == "video_call" && base.meetingLink == "" then
    { base with
      meetingLink := "https://meet.jit.si/mentorship-" ++ toString newId
      meetingId := "mentorship-" ++ toString newId }
  else base

/-- Book a session (setup-deployment.js route).  `mentor` is the result
of `Mentor.findById(mentorId)`; `store` holds the existing Session
documents; on success the new session is appended to the store. -/
def bookSession (mentor : Option Mentor) (store : List Session)
    (studentId mentorId : Nat) (title description : String)
    (scheduledDate : Int) (duration : Nat) (sessionType : String)
    (topics : List String) (newId : Nat) : RouteResult (List Session) :=
  if ¬ bookingValidation title description duration sessionType then
    ⟨400, store⟩
  else
    match mentor with
    | none => ⟨404, store⟩
    | some m =>
      if m.verificationStatus ≠ VerificationStatus.approved then
        ⟨404, store⟩
      else if hasConflict store studentId scheduledDate duration then
        ⟨400, store⟩
      else
        ⟨201, store ++ [mkSession newId studentId mentorId title
          description scheduledDate duration sessionType topics]⟩

/-! ## Cancel route
(`PUT /sessions/:sessionId/cancel`, src/setup-deployment.js) -/

/-- Student cancels a session.  The handler never consults its validator
result, so any `reason` body value reaches the logic; a missing or empty
reason falls back to the default string via JS `||`. -/
def cancelSession (session : Session) (studentId : Nat)
    (reason : Option String) (now : Int) : RouteResult Session :=
  if session.studentId ≠ studentId then ⟨403, session⟩
  else if session.status = SessionStatus.cancelled then ⟨400, session⟩
  else
    ⟨200, { session with
      status := SessionStatus.cancelled
      cancellation := some
        { cancelledBy := "student"
          reason :=
            match reason with
            | some r => if r == "" then "Cancelled by student" else r
            | none => "Cancelled by student"
          cancelledAt := now } }⟩

/-! ## Mentor status-update route
(`PUT /sessions/:sessionId/status`, src/routes/mentors.js) -/

/-- The `isIn` validator of the status route: `scheduled` and `no-show`
are not accepted as targets. -/
def statusUpdateAllowed (st : SessionStatus) : Bool :=
  st == SessionStatus.confirmed || st == SessionStatus.inProgress ||
    st == SessionStatus.completed || st == SessionStatus.cancelled

/-- The duration handed to `updateStats` on completion:
`session.actualDuration || session.duration` (JS `||`, so a recorded
actual duration of 0 falls back to the scheduled duration). -/
def completedChargedDuration (s : Session) : ℚ :=
  match s.actualDuration with
  | some d => if d ≠ 0 then (d : ℚ) else (s.duration : ℚ)
  | none => (s.duration : ℚ)

/-- Mentor updates a session status (routes/mentors.js route).
`mentor` is `req.mentor` from the auth middleware; `now` is the time of
the request.  On transition to `completed` with no recorded actual end
time, stamps the end time and a rounded actual duration (defaulting the
start to the scheduled date), and folds the charged duration into the
mentor's running totals. -/
def updateSessionStatus (session : Session) (mentor : Mentor)
    (newStatus : SessionStatus) (notes : Option String) (now : Int) :
    RouteResult (Session × Mentor) :=
  if ¬ statusUpdateAllowed newStatus then ⟨400, (session, mentor)⟩
  else if session.mentorId ≠ mentor.id then ⟨403, (session, mentor)⟩
  else
    let s1 : Session := { session with
      status := newStatus
      notesMentor :=
        match notes with
        | some n => if n == "" then session.notesMentor else some n
        | none => session.notesMentor }
    let s2 : Session :=
      if newStatus = SessionStatus.completed ∧ s1.actualEndTime = none then
        let start : Int :=
          match s1.actualStartTime with
          | some t => t
          | none => s1.scheduledDate
        { s1 with
          actualEndTime := some now
          actualStartTime := some start
          actualDuration := some (jsRound (((now - start : Int) : ℚ) / 60000)) }
      else s1
    let mentor' : Mentor :=
      if newStatus = SessionStatus.completed then
        updateStats mentor (completedChargedDuration s2)
      else mentor
    ⟨200, (s2, mentor')⟩

/-! ## Admin session-update route
(`PUT /:sessionId`, src/routes/sessions.js) -/

/-- Admin updates a session.  The handler takes `status` straight from
the body with no route-level validation; only the schema enum constrains
it on save, so any `SessionStatus` value — including `scheduled` — can
be assigned.  A missing (or falsy, i.e. empty-string) status leaves the
field alone. -/
def adminUpdateSession (session : Session) (status : Option SessionStatus)
    (notes : Option String) : RouteResult Session :=
  let s1 : Session :=
    match status with
    | some st => { session with status := st }
    | none => session
  let s2 : Session :=
    match notes with
    | some n => if n == "" then s1 else { s1 with notesAdmin := some n }
    | none => s1
  ⟨200, s2⟩

/-! ## General feedback route
(`POST /:sessionId/feedback`, src/routes/sessions.js) -/

/-- Student feedback via the general sessions router.  Unlike the
setup-deployment route, authorization compares `session.studentId` (the
Student profile document id) with `req.user._id` (the User id). -/
def generalSubmitFeedback (session : Session) (userId : Nat)
    (rating : Nat) (comment : Option String) (now : Int) :
    RouteResult Session :=
  if ¬ feedbackValidation rating comment then ⟨400, session⟩
  else if session.status ≠ SessionStatus.completed ∨
      session.studentId ≠ userId then ⟨403, session⟩
  else if numTruthy session.feedbackStudent.rating then ⟨400, session⟩
  else
    ⟨200, { session with feedbackStudent :=
      { rating := some rating, comment := comment
        submittedAt := some now } }⟩

/-! ## Quiz scoring (`POST /submit`, src/unnamed/part_006) -/

/-- One option of a career-assessment question. -/
structure QuizOption where
  text : String
  careers : List String
  weight : Nat
  deriving Repr, DecidableEq

/-- One career-assessment question. -/
structure QuizQuestion where
  id : Nat
  question : String
  options : List QuizOption
  deriving Repr, DecidableEq

/-- The static `careerQuestions` lookup table. -/
def careerQuestions : List QuizQuestion :=
  [ { id := 1
      question := "What subjects do you enjoy studying the most?"
      options :=
        [ { text := "Mathematics and Science"
            careers := ["Engineering", "Computer Science", "Medical", "Technology"]
            weight := 3 }
        , { text := "Literature and Languages"
            careers := ["Arts", "Literature", "Teaching", "Law"]
            weight := 2 }
        , { text := "Business and Economics"
            careers := ["Commerce", "Business", "Finance", "Management"]
            weight := 2 }
        , { text := "Sports and Physical Activities"
            careers := ["Sports", "Physical Education", "Fitness", "Coaching"]
            weight := 1 } ] }
  , { id := 2
      question := "How do you prefer to spend your free time?"
      options :=
        [ { text := "Solving puzzles and problems"
            careers := ["Engineering", "Computer Science", "Science", "Technology"]
            weight := 3 }
        , { text := "Reading books and writing"
            careers := ["Literature", "Arts", "Teaching", "Journalism"]
            weight := 2 }
        , { text := "Organizing events and leading groups"
            careers := ["Business", "Management", "Teaching", "Politics"]
            weight := 2 }
        , { text := "Creating art or music"
            careers := ["Arts", "Music", "Design", "Creative"]
            weight := 2 } ] }
  , { id := 3
      question := "What type of work environment appeals to you?"
      options :=
        [ { text := "Laboratory or technical setting"
            careers := ["Science", "Medical", "Engineering", "Technology"]
            weight := 3 }
        , { text := "Office with people interaction"
            careers := ["Business", "Management", "Teaching", "Law"]
            weight := 2 }
        , { text := "Creative studio or workshop"
            careers := ["Arts", "Design", "Music", "Creative"]
            weight := 2 }
        , { text := "Outdoor or field work"
            careers := ["Agriculture", "Sports", "Environmental", "Adventure"]
            weight := 1 } ] }
  , { id := 4
      question := "What are your strengths?"
      options :=
        [ { text := "Analytical thinking and problem-solving"
            careers := ["Engineering", "Computer Science", "Science", "Technology"]
            weight := 3 }
        , { text := "Communication and interpersonal skills"
            careers := ["Teaching", "Business", "Law", "Management"]
            weight := 2 }
        , { text := "Creativity and artistic abilities"
            careers := ["Arts", "Design", "Music", "Creative"]
            weight := 2 }
        , { text := "Physical fitness and coordination"
            careers := ["Sports", "Physical Education", "Dance", "Fitness"]
            weight := 1 } ] }
  , { id := 5
      question := "What motivates you the most?"
      options :=
        [ { text := "Innovation and discovery"
            careers := ["Science", "Technology", "Engineering", "Research"]
            weight := 3 }
        , { text := "Helping and teaching others"
            careers := ["Teaching", "Medical", "Social Work", "Counseling"]
            weight := 2 }
        , { text := "Financial success and leadership"
            careers := ["Business", "Management", "Finance", "Entrepreneurship"]
            weight := 2 }
        , { text := "Creative expression and recognition"
            careers := ["Arts", "Music", "Design", "Entertainment"]
            weight := 2 } ] } ]

/-- One submitted answer of the quiz body. -/
structure Answer where
  questionId : Nat
  selectedOption : Nat
  deriving Repr, DecidableEq

/-- `careerScores[career] = (careerScores[career] || 0) + weight` on a JS
object: update the existing key in place, else append a new key at the
end (JS objects preserve insertion order of string keys). -/
def bump (scores : List (String × Nat)) (career : String) (w : Nat) :
    List (String × Nat) :=
  match scores with
  | [] => [(career, w)]
  | (c, s) :: rest =>
    if c = career then (c, s + w) :: rest else (c, s) :: bump rest career w

/-- Fold one answer into the score object: silently skipped when the
question id is unknown or the option index is out of range. -/
def applyAnswer (scores : List (String × Nat)) (a : Answer) :
    List (String × Nat) :=
  match careerQuestions.find? (fun q => q.id == a.questionId) with
  | none => scores
  | some q =>
    match q.options[a.selectedOption]? with
    | none => scores
    | some opt => opt.careers.foldl (fun sc c => bump sc c opt.weight) scores

/-- The accumulated `careerScores` object over all submitted answers. -/
def computeScores (answers : List Answer) : List (String × Nat) :=
  answers.foldl applyAnswer []

/-- Stable descending insertion: the new entry goes in front of the
first entry with a score `≤` its own.  This realizes the JS stable
`sort((a, b) => b.score - a.score)` because the fold below feeds entries
from the right. -/
def insertDesc (x : String × Nat) : List (String × Nat) → List (String × Nat)
  | [] => [x]
  | y :: ys => if y.2 ≤ x.2 then x :: y :: ys else y :: insertDesc x ys

/-- Stable sort by score descending (ties keep object insertion order). -/
def sortDesc (l : List (String × Nat)) : List (String × Nat) :=
  l.foldr insertDesc []

/-- The `recommendedCareers` value of the quiz submission route: scores
accumulated, sorted descending by score, truncated to the top 5. -/
def submitQuiz (answers : List Answer) : List (String × Nat) :=
  (sortDesc (computeScores answers)).take 5

/-- Score a single answer contributes to a given career: the option's
weight for each occurrence of the career among the option's tags (0 when
the answer does not resolve to a valid option). -/
def answerContribution (a : Answer) (career : String) : Nat :=
  match careerQuestions.find? (fun q => q.id == a.questionId) with
  | none => 0
  | some q =>
    match q.options[a.selectedOption]? with
    | none => 0
    | some opt => opt.weight * opt.careers.count career

/-- Look a career up in the score object (0 when absent). -/
def lookupScore (scores : List (String × Nat)) (career : String) : Nat :=
  match scores with
  | [] => 0
  | (c, s) :: rest => if c = career then s else lookupScore rest career

/-! ## Concrete documents for witnesses and counterexamples -/

/-- A concrete baseline session (student profile 3, mentor 7). -/
def testSession : Session :=
  { id := 1, studentId := 3, mentorId := 7, title := "t", description := "d"
    scheduledDate := 120000, duration := 60
    status := SessionStatus.scheduled, sessionType := "chat"
    meetingLink := "", meetingId := "", topics := []
    notesMentor := none, notesAdmin := none
    feedbackStudent := { rating := none, comment := none, submittedAt := none }
    feedbackMentor := { rating := none, comment := none, submittedAt := none }
    cancellation := none, actualStartTime := none, actualEndTime := none
    actualDuration := none }

/-- The baseline session completed with feedback already present on both
sides. -/
def testSessionBothFeedback : Session :=
  { testSession with
    status := SessionStatus.completed
    feedbackStudent :=
      { rating := some 5, comment := none, submittedAt := some 1 }
    feedbackMentor :=
      { rating := some 4, comment := none, submittedAt := some 2 } }

/-- A concrete approved mentor (id 7, owned by user 9). -/
def testMentor : Mentor :=
  { id := 7, userId := 9, verificationStatus := VerificationStatus.approved
    ratings := { average := 0, totalReviews := 0, reviews := [] }
    stats := { totalSessions := 0, totalHours := 0 } }

/-! # Theorems -/

/-- C1: after a student submits feedback on a completed session, the
mentor's `ratings.average` equals the mean of all embedded review
ratings (including the newly appended review) rounded to one decimal
place, and `ratings.totalReviews` equals the length of that list; a
mentor with an empty review list has computed average 0. -/
theorem student_feedback_rating_aggregation
    (session : Session) (m : Mentor) (studentId rating : Nat)
    (comment : Option String) (now : Int)
    (hval : feedbackValidation rating comment = true)
    (hown : session.studentId = studentId)
    (hst : session.status = SessionStatus.completed)
    (hfb : session.feedbackStudent.rating = none) :
    (∀ m0 : Mentor, m0.ratings.reviews = [] → calculateAverageRating m0 = 0) ∧
    ∃ m' : Mentor,
      (submitStudentFeedback session (some m) studentId rating comment
          now).code = 200 ∧
      (submitStudentFeedback session (some m) studentId rating comment
          now).state.2 = some m' ∧
      m'.ratings.reviews = m.ratings.reviews ++
        [{ studentId := studentId, rating := rating, comment := comment
           date := now }] ∧
      m'.ratings.totalReviews = m'.ratings.reviews.length ∧
      m'.ratings.average =
        round1 (((m'.ratings.reviews.map (fun r => (r.rating : ℚ))).sum) /
          (m'.ratings.reviews.length : ℚ)) := by
  constructor
  · intro m0 h0
    simp [calculateAverageRating, h0]
  · refine ⟨{ m with ratings :=
      { average := round1
          (((m.ratings.reviews.map (fun r => (r.rating : ℚ))).sum + rating) /
            ((m.ratings.reviews.length : ℚ) + 1))
        totalReviews := m.ratings.reviews.length + 1
        reviews := m.ratings.reviews ++
          [{ studentId := studentId, rating := rating, comment := comment
             date := now }] } }, ?_, ?_, ?_, ?_, ?_⟩
    · simp [submitStudentFeedback, hval, hown, hst, hfb, numTruthy]
    · simp [submitStudentFeedback, hval, hown, hst, hfb, numTruthy,
        calculateAverageRating]
    · simp
    · simp
    · simp

/-- C1 witness: concrete instantiation on `testSession` / `testMentor`. -/
theorem student_feedback_rating_aggregation_witness :
    feedbackValidation 4 none = true ∧
    ({ testSession with status := SessionStatus.completed } :
        Session).studentId = 3 ∧
    ({ testSession with status := SessionStatus.completed } :
        Session).status = SessionStatus.completed ∧
    ({ testSession with status := SessionStatus.completed } :
        Session).feedbackStudent.rating = none ∧
    ((∀ m0 : Mentor, m0.ratings.reviews = [] →
        calculateAverageRating m0 = 0) ∧
      ∃ m' : Mentor,
        (submitStudentFeedback
            { testSession with status := SessionStatus.completed }
            (some testMentor) 3 4 none 500000).code = 200 ∧
        (submitStudentFeedback
            { testSession with status := SessionStatus.completed }
            (some testMentor) 3 4 none 500000).state.2 = some m' ∧
        m'.ratings.reviews = testMentor.ratings.reviews ++
          [{ studentId := 3, rating := 4, comment := none
             date := 500000 }] ∧
        m'.ratings.totalReviews = m'.ratings.reviews.length ∧
        m'.ratings.average =
          round1 (((m'.ratings.reviews.map (fun r => (r.rating : ℚ))).sum) /
            (m'.ratings.reviews.length : ℚ))) :=
  ⟨by decide, rfl, rfl, rfl,
    student_feedback_rating_aggregation
      { testSession with status := SessionStatus.completed }
      testMentor 3 4 none 500000 (by decide) rfl rfl rfl⟩

/-- C2: on each side of a session, feedback can be recorded at most
once: when the session's feedback field for that side already holds a
(non-zero, hence schema-valid) rating, a second submission on that side
returns 400 and leaves the session — and, on the student side, the
mentor document — exactly as they were. -/
theorem feedback_once_per_side
    (session : Session) (mentor : Option Mentor) (sid mid rating : Nat)
    (comment : Option String) (now : Int) (r1 r2 : Nat)
    (hval : feedbackValidation rating comment = true) :
    (session.studentId = sid → session.status = SessionStatus.completed →
      session.feedbackStudent.rating = some r1 → r1 ≠ 0 →
      submitStudentFeedback session mentor sid rating comment now =
        ⟨400, (session, mentor)⟩) ∧
    (session.mentorId = mid → session.status = SessionStatus.completed →
      session.feedbackMentor.rating = some r2 → r2 ≠ 0 →
      submitMentorFeedback session mid rating comment now =
        ⟨400, session⟩) := by
  constructor
  · intro hown hst hfb hnz
    simp [submitStudentFeedback, hval, hown, hst, hfb, numTruthy, hnz]
  · intro hown hst hfb hnz
    simp [submitMentorFeedback, hval, hown, hst, hfb, numTruthy, hnz]

/-- C2 witness: a session already holding a student rating 5 and a
mentor rating 4 rejects both second submissions unchanged. -/
theorem feedback_once_per_side_witness :
    feedbackValidation 3 none = true ∧
    submitStudentFeedback testSessionBothFeedback (some testMentor) 3 3
        none 900000 = ⟨400, (testSessionBothFeedback, some testMentor)⟩ ∧
    submitMentorFeedback testSessionBothFeedback 7 3 none 900000 =
      ⟨400, testSessionBothFeedback⟩ :=
  ⟨by decide,
    (feedback_once_per_side testSessionBothFeedback (some testMentor) 3 7 3
      none 900000 5 4 (by decide)).1 rfl rfl rfl (by decide),
    (feedback_once_per_side testSessionBothFeedback (some testMentor) 3 7 3
      none 900000 5 4 (by decide)).2 rfl rfl rfl (by decide)⟩

/-- C10: the general session-feedback route authorizes by comparing the
session's `studentId` (the Student profile document id) against the
authenticated User id: success implies the two are equal, and whenever a
session's Student profile id differs from the profile's owning User id,
the request from that owning User is rejected with 403 unchanged — even
though that user is the session's own student. -/
theorem general_feedback_compares_profile_id_to_user_id
    (session : Session) (userId rating : Nat) (comment : Option String)
    (now : Int)
    (hval : feedbackValidation rating comment = true) :
    ((generalSubmitFeedback session userId rating comment now).code =
        200 → session.studentId = userId) ∧
    (∀ p : StudentProfile, p.id ≠ p.userId → session.studentId = p.id →
      generalSubmitFeedback session p.userId rating comment now =
        ⟨403, session⟩) := by
  constructor
  · intro hcode
    by_contra hne
    simp [generalSubmitFeedback, hval, hne] at hcode
  · intro p hpne hsid
    have : session.studentId ≠ p.userId := by
      rw [hsid]; exact hpne
    simp [generalSubmitFeedback, hval, this]

/-- C10 witness: profile id 3 owned by user 9; the session referencing
profile 3 rejects feedback from user 9 with 403. -/
theorem general_feedback_compares_profile_id_witness :
    feedbackValidation 4 none = true ∧
    (3 : Nat) ≠ (9 : Nat) ∧
    ({ testSession with status := SessionStatus.completed } :
        Session).studentId = 3 ∧
    generalSubmitFeedback
        { testSession with status := SessionStatus.completed } 9 4 none
        700000 =
      ⟨403, { testSession with status := SessionStatus.completed }⟩ :=
  ⟨by decide, by decide, rfl,
    (general_feedback_compares_profile_id_to_user_id
        { testSession with status := SessionStatus.completed } 9 4 none
        700000 (by decide)).2
      { id := 3, userId := 9 } (by decide) rfl⟩

/-- The conflict query fires exactly when some stored session of the
student is `scheduled`/`confirmed` with scheduled date in the half-open
window. -/
theorem hasConflict_iff (store : List Session) (sid : Nat) (start : Int)
    (duration : Nat) :
    hasConflict store sid start duration = true ↔
    ∃ s ∈ store, s.studentId = sid ∧
      (s.status = SessionStatus.scheduled ∨
        s.status = SessionStatus.confirmed) ∧
      start ≤ s.scheduledDate ∧
      s.scheduledDate < start + (duration : Int) * 60000 := by
  simp only [hasConflict, List.any_eq_true, Bool.and_eq_true, beq_iff_eq,
    Bool.or_eq_true, decide_eq_true_eq]
  constructor
  · rintro ⟨s, hs, h⟩
    exact ⟨s, hs, h.1.1, h.2, h.1.2⟩
  · rintro ⟨s, hs, h1, h2, h3⟩
    exact ⟨s, hs, ⟨h1, h3⟩, h2⟩

/-- C3: with an approved mentor and valid body, booking returns 400 and
creates nothing exactly in the presence of a stored `scheduled` or
`confirmed` session of the student whose start lies in
[start, start + duration); in particular an existing session at exactly
the proposed start is rejected, and when no stored session starts inside
the window — regardless of any other interval intersection — the
booking succeeds and appends the new session. -/
theorem booking_overlap_window
    (m : Mentor) (store : List Session) (sid mid : Nat)
    (title desc : String) (start : Int) (duration : Nat)
    (stype : String) (topics : List String) (newId : Nat)
    (hval : bookingValidation title desc duration stype = true)
    (happr : m.verificationStatus = VerificationStatus.approved) :
    ((∃ s ∈ store, s.studentId = sid ∧
        (s.status = SessionStatus.scheduled ∨
          s.status = SessionStatus.confirmed) ∧
        start ≤ s.scheduledDate ∧
        s.scheduledDate < start + (duration : Int) * 60000) →
      bookSession (some m) store sid mid title desc start duration stype
        topics newId = ⟨400, store⟩) ∧
    ((∃ s ∈ store, s.studentId = sid ∧
        s.status = SessionStatus.scheduled ∧ s.scheduledDate = start) →
      bookSession (some m) store sid mid title desc start duration stype
        topics newId = ⟨400, store⟩) ∧
    ((∀ s ∈ store, s.studentId = sid →
        (s.status = SessionStatus.scheduled ∨
          s.status = SessionStatus.confirmed) →
        ¬(start ≤ s.scheduledDate ∧
          s.scheduledDate < start + (duration : Int) * 60000)) →
      bookSession (some m) store sid mid title desc start duration stype
        topics newId =
        ⟨201, store ++ [mkSession newId sid mid title desc start duration
          stype topics]⟩) := by
  have hdur : 30 ≤ duration := by
    simp only [bookingValidation, Bool.and_eq_true, decide_eq_true_eq] at hval
    exact hval.1.2.1
  refine ⟨?_, ?_, ?_⟩
  · intro hex
    have hc : hasConflict store sid start duration = true :=
      (hasConflict_iff store sid start duration).2 hex
    simp [bookSession, hval, happr, hc]
  · rintro ⟨s, hs, h1, h2, h3⟩
    have hc : hasConflict store sid start duration = true := by
      refine (hasConflict_iff store sid start duration).2
        ⟨s, hs, h1, Or.inl h2, le_of_eq h3.symm, ?_⟩
      rw [h3]
      have : (0 : Int) < (duration : Int) * 60000 := by
        have h30 : (30 : Int) ≤ (duration : Int) := by exact_mod_cast hdur
        nlinarith
      linarith
    simp [bookSession, hval, happr, hc]
  · intro hall
    have hc : hasConflict store sid start duration = false := by
      rw [← Bool.not_eq_true, hasConflict_iff]
      rintro ⟨s, hs, h1, h2, h3⟩
      exact hall s hs h1 h2 h3
    simp [bookSession, hval, happr, hc]

/-- C3 witness: a stored scheduled session of student 3 at exactly the
proposed start blocks the booking. -/
theorem booking_overlap_window_witness :
    bookingValidation "t" "d" 60 "chat" = true ∧
    testMentor.verificationStatus = VerificationStatus.approved ∧
    (∃ s ∈ [testSession], s.studentId = 3 ∧
      s.status = SessionStatus.scheduled ∧ s.scheduledDate = 120000) ∧
    bookSession (some testMentor) [testSession] 3 7 "t" "d" 120000 60
      "chat" [] 2 = ⟨400, [testSession]⟩ :=
  ⟨by decide, rfl, ⟨testSession, by simp, rfl, rfl, rfl⟩,
    (booking_overlap_window testMentor [testSession] 3 7 "t" "d" 120000 60
        "chat" [] 2 (by decide) rfl).2.1
      ⟨testSession, by simp, rfl, rfl, rfl⟩⟩

/-- C4: booking never creates a Session for a missing or non-approved
mentor — the result is an error code with the store unchanged — and
conversely the 201 success path is reached only when the mentor exists
with verification status `approved`. -/
theorem booking_requires_approved_mentor
    (mentor : Option Mentor) (store : List Session) (sid mid : Nat)
    (title desc : String) (start : Int) (duration : Nat)
    (stype : String) (topics : List String) (newId : Nat) :
    ((mentor = none ∨ ∃ m, mentor = some m ∧
        m.verificationStatus ≠ VerificationStatus.approved) →
      (bookSession mentor store sid mid title desc start duration stype
          topics newId).code ≠ 201 ∧
      (bookSession mentor store sid mid title desc start duration stype
          topics newId).state = store) ∧
    ((bookSession mentor store sid mid title desc start duration stype
        topics newId).code = 201 →
      ∃ m, mentor = some m ∧
        m.verificationStatus = VerificationStatus.approved) := by
  constructor
  · intro hbad
    by_cases hv : bookingValidation title desc duration stype = true
    · rcases hbad with hnone | ⟨m, hm, hne⟩
      · subst hnone
        simp [bookSession, hv]
      · subst hm
        simp [bookSession, hv, hne]
    · simp [bookSession, hv]
  · intro hcode
    by_cases hv : bookingValidation title desc duration stype = true
    · cases mentor with
      | none => simp [bookSession, hv] at hcode
      | some m =>
        by_cases happr :
            m.verificationStatus = VerificationStatus.approved
        · exact ⟨m, rfl, happr⟩
        · simp [bookSession, hv, happr] at hcode
    · simp [bookSession, hv] at hcode

/-- C4 witness: a pending mentor blocks booking with the store
unchanged. -/
theorem booking_requires_approved_mentor_witness :
    ((some { testMentor with
        verificationStatus := VerificationStatus.pending } :
          Option Mentor) = none ∨
      ∃ m, (some { testMentor with
          verificationStatus := VerificationStatus.pending } :
            Option Mentor) = some m ∧
        m.verificationStatus ≠ VerificationStatus.approved) ∧
    (bookSession
        (some { testMentor with
          verificationStatus := VerificationStatus.pending })
        [] 3 7 "t" "d" 120000 60 "chat" [] 2).code ≠ 201 ∧
    (bookSession
        (some { testMentor with
          verificationStatus := VerificationStatus.pending })
        [] 3 7 "t" "d" 120000 60 "chat" [] 2).state = [] :=
  ⟨Or.inr ⟨_, rfl, by decide⟩,
    (booking_requires_approved_mentor _ [] 3 7 "t" "d" 120000 60 "chat"
        [] 2).1 (Or.inr ⟨_, rfl, by decide⟩)⟩

/-- C5 counterexample: completing a session with no recorded times
two minutes before its scheduled date yields `actualDuration = -2`, so
the computed actual duration is not always non-negative. -/
theorem completed_duration_negative_cex :
    (updateSessionStatus testSession testMentor SessionStatus.completed
        none 0).state.1.actualDuration = some (-2) ∧
    ((-2 : Int) < 0) := by
  refine ⟨?_, by decide⟩
  simp only [updateSessionStatus, testSession, testMentor,
    statusUpdateAllowed]
  norm_num [jsRound]

/-- C5 (amended): completing a session that has no recorded actual end
time and no recorded actual start time sets `actualStartTime` to the
originally scheduled date, `actualEndTime` to the current time, and
`actualDuration` to the rounded minute count between the two — which is
non-negative whenever the completion happens at or after the scheduled
date (but can be negative for an early completion). -/
theorem completed_stamps_scheduled_start
    (session : Session) (mentor : Mentor) (notes : Option String)
    (now : Int)
    (hend : session.actualEndTime = none)
    (hstart : session.actualStartTime = none)
    (hown : session.mentorId = mentor.id)
    (hle : session.scheduledDate ≤ now) :
    (updateSessionStatus session mentor SessionStatus.completed notes
        now).code = 200 ∧
    (updateSessionStatus session mentor SessionStatus.completed notes
        now).state.1.actualStartTime = some session.scheduledDate ∧
    (updateSessionStatus session mentor SessionStatus.completed notes
        now).state.1.actualEndTime = some now ∧
    (updateSessionStatus session mentor SessionStatus.completed notes
        now).state.1.actualDuration =
      some (jsRound (((now - session.scheduledDate : Int) : ℚ) / 60000)) ∧
    0 ≤ jsRound (((now - session.scheduledDate : Int) : ℚ) / 60000) := by
  have hq : (0 : ℚ) ≤ ((now - session.scheduledDate : Int) : ℚ) / 60000 := by
    apply div_nonneg
    · have h0 : (0 : Int) ≤ now - session.scheduledDate := by linarith
      exact_mod_cast h0
    · norm_num
  refine ⟨?_, ?_, ?_, ?_, ?_⟩
  · simp [updateSessionStatus, hown, hend, hstart, statusUpdateAllowed]
  · simp [updateSessionStatus, hown, hend, hstart, statusUpdateAllowed]
  · simp [updateSessionStatus, hown, hend, hstart, statusUpdateAllowed]
  · simp [updateSessionStatus, hown, hend, hstart, statusUpdateAllowed]
  · unfold jsRound
    have h2 : ((0 : Int) : ℚ) ≤
        ((now - session.scheduledDate : Int) : ℚ) / 60000 + 1/2 := by
      push_cast
      push_cast at hq
      linarith
    exact Int.le_floor.2 h2

/-- C5 amended-theorem witness: completing at time 300000 a session
scheduled at 120000 stamps start 120000, end 300000 and duration 3. -/
theorem completed_stamps_scheduled_start_witness :
    testSession.actualEndTime = none ∧
    testSession.actualStartTime = none ∧
    testSession.mentorId = testMentor.id ∧
    testSession.scheduledDate ≤ 300000 ∧
    ((updateSessionStatus testSession testMentor SessionStatus.completed
        none 300000).code = 200 ∧
      (updateSessionStatus testSession testMentor SessionStatus.completed
        none 300000).state.1.actualStartTime =
        some testSession.scheduledDate ∧
      (updateSessionStatus testSession testMentor SessionStatus.completed
        none 300000).state.1.actualEndTime = some 300000 ∧
      (updateSessionStatus testSession testMentor SessionStatus.completed
        none 300000).state.1.actualDuration =
        some (jsRound (((300000 - testSession.scheduledDate : Int) : ℚ) /
          60000)) ∧
      0 ≤ jsRound (((300000 - testSession.scheduledDate : Int) : ℚ) /
        60000)) :=
  ⟨rfl, rfl, rfl, by decide,
    completed_stamps_scheduled_start testSession testMentor none 300000
      rfl rfl rfl (by decide)⟩

/-- C6 counterexample: the admin session-update route takes an
unvalidated status from the body, so it reverts a completed session
straight back to `scheduled`. -/
theorem admin_route_reverts_completed_cex :
    ({ testSession with status := SessionStatus.completed } :
        Session).status = SessionStatus.completed ∧
    (adminUpdateSession
        { testSession with status := SessionStatus.completed }
        (some SessionStatus.scheduled) none).code = 200 ∧
    (adminUpdateSession
        { testSession with status := SessionStatus.completed }
        (some SessionStatus.scheduled) none).state.status =
      SessionStatus.scheduled :=
  ⟨rfl, rfl, rfl⟩

/-- C6 (amended): the mentor status-update route can never move a
session to `scheduled` — its validator only admits `confirmed`,
`in-progress`, `completed`, `cancelled` — so no sequence through that
route reverts completed → scheduled; the admin session-update route,
however, assigns any schema status from the body, including
`scheduled` on a completed session. -/
theorem mentor_status_route_never_scheduled
    (session : Session) (mentor : Mentor) (st : SessionStatus)
    (notes : Option String) (now : Int)
    (h : session.status ≠ SessionStatus.scheduled) :
    (updateSessionStatus session mentor st notes now).state.1.status ≠
      SessionStatus.scheduled := by
  have hst : statusUpdateAllowed st = true →
      st ≠ SessionStatus.scheduled := by
    intro ha e
    subst e
    simp [statusUpdateAllowed] at ha
  simp only [updateSessionStatus]
  split_ifs with h1 h2 h3 h4 <;> simp_all

/-- C6 amended-theorem witness: the mentor route applied to a completed
session (target `confirmed`) does not yield `scheduled`. -/
theorem mentor_status_route_never_scheduled_witness :
    ({ testSession with status := SessionStatus.completed } :
        Session).status ≠ SessionStatus.scheduled ∧
    (updateSessionStatus
        { testSession with status := SessionStatus.completed } testMentor
        SessionStatus.confirmed none 500000).state.1.status ≠
      SessionStatus.scheduled :=
  ⟨by decide,
    mentor_status_route_never_scheduled
      { testSession with status := SessionStatus.completed } testMentor
      SessionStatus.confirmed none 500000 (by decide)⟩

/-- C7 counterexample: the student cancel route only rejects an
already-cancelled session, so a `completed` session — not a
pre-completed state — is cancelled successfully. -/
theorem cancel_from_completed_cex :
    ({ testSession with status := SessionStatus.completed } :
        Session).status = SessionStatus.completed ∧
    (cancelSession { testSession with status := SessionStatus.completed }
        3 none 999).code = 200 ∧
    (cancelSession { testSession with status := SessionStatus.completed }
        3 none 999).state.status = SessionStatus.cancelled :=
  ⟨rfl, rfl, rfl⟩

/-- C7 (amended): the student cancel succeeds from any state that is
not already `cancelled` — including `completed` and `no-show`, so
`cancelled` is reachable from any non-cancelled state, not only from
pre-completed ones — recording `cancelledBy = "student"`, the given (or
default) reason and the timestamp, and is rejected with 400 and the
session unchanged exactly when the session is already cancelled. -/
theorem cancel_any_noncancelled
    (session : Session) (sid : Nat) (reason : Option String) (now : Int)
    (hown : session.studentId = sid) :
    (session.status ≠ SessionStatus.cancelled →
      cancelSession session sid reason now =
        ⟨200, { session with
          status := SessionStatus.cancelled
          cancellation := some
            { cancelledBy := "student"
              reason :=
                match reason with
                | some r =>
                  if r == "" then "Cancelled by student" else r
                | none => "Cancelled by student"
              cancelledAt := now } }⟩) ∧
    (session.status = SessionStatus.cancelled →
      cancelSession session sid reason now = ⟨400, session⟩) := by
  constructor
  · intro hne
    simp [cancelSession, hown, hne]
  · intro he
    simp [cancelSession, hown, he]

/-- C7 amended-theorem witness: cancelling a completed session of
student 3 succeeds with the cancellation record filled in. -/
theorem cancel_any_noncancelled_witness :
    ({ testSession with status := SessionStatus.completed } :
        Session).studentId = 3 ∧
    ({ testSession with status := SessionStatus.completed } :
        Session).status ≠ SessionStatus.cancelled ∧
    cancelSession { testSession with status := SessionStatus.completed }
        3 none 999 =
      ⟨200, { { testSession with status := SessionStatus.completed } with
        status := SessionStatus.cancelled
        cancellation := some
          { cancelledBy := "student", reason := "Cancelled by student"
            cancelledAt := 999 } }⟩ :=
  ⟨rfl, by decide,
    (cancel_any_noncancelled
        { testSession with status := SessionStatus.completed } 3 none 999
        rfl).1 (by decide)⟩

/-- On a valid completed-status update, the returned mentor is
`updateStats` of the old mentor at the charged duration of the updated
session, and the updated session keeps its mentor reference. -/
theorem updateSessionStatus_completed_parts
    (session : Session) (mentor : Mentor) (notes : Option String)
    (now : Int)
    (hown : session.mentorId = mentor.id) :
    (updateSessionStatus session mentor SessionStatus.completed notes
        now).state.2 =
      updateStats mentor (completedChargedDuration
        ((updateSessionStatus session mentor SessionStatus.completed notes
          now).state.1)) ∧
    (updateSessionStatus session mentor SessionStatus.completed notes
        now).state.1.mentorId = mentor.id := by
  constructor
  · simp [updateSessionStatus, hown,
      show statusUpdateAllowed SessionStatus.completed = true from rfl]
  · simp only [updateSessionStatus, hown,
      show statusUpdateAllowed SessionStatus.completed = true from rfl]
    split_ifs <;> simp_all

/-- C9: every completed-status update that passes ownership validation
adds exactly 1 to the mentor's `stats.totalSessions` and the charged
session duration in hours to `stats.totalHours`, with no check of the
session's prior status or of prior completion; repeating the completed
update on the same session therefore increments the totals again. -/
theorem completed_update_increments_mentor_stats
    (session : Session) (mentor : Mentor) (n1 n2 : Option String)
    (t1 t2 : Int)
    (hown : session.mentorId = mentor.id) :
    (updateSessionStatus session mentor SessionStatus.completed n1
        t1).state.2.stats.totalSessions =
      mentor.stats.totalSessions + 1 ∧
    (updateSessionStatus session mentor SessionStatus.completed n1
        t1).state.2.stats.totalHours =
      mentor.stats.totalHours + completedChargedDuration
        ((updateSessionStatus session mentor SessionStatus.completed n1
          t1).state.1) / 60 ∧
    (updateSessionStatus
        ((updateSessionStatus session mentor SessionStatus.completed n1
          t1).state.1)
        ((updateSessionStatus session mentor SessionStatus.completed n1
          t1).state.2)
        SessionStatus.completed n2 t2).state.2.stats.totalSessions =
      mentor.stats.totalSessions + 2 := by
  obtain ⟨hm1, hs1⟩ :=
    updateSessionStatus_completed_parts session mentor n1 t1 hown
  have hown2 : (updateSessionStatus session mentor
      SessionStatus.completed n1 t1).state.1.mentorId =
      ((updateSessionStatus session mentor SessionStatus.completed n1
        t1).state.2).id := by
    rw [hs1, hm1]
    rfl
  obtain ⟨hm2, _⟩ :=
    updateSessionStatus_completed_parts _ _ n2 t2 hown2
  refine ⟨?_, ?_, ?_⟩
  · rw [hm1]
    simp [updateStats]
  · rw [hm1]
    simp [updateStats]
  · rw [hm2, hm1]
    simp [updateStats]

/-- C9 witness: completing `testSession` twice takes `testMentor` from
0 to 2 total sessions. -/
theorem completed_update_increments_mentor_stats_witness :
    testSession.mentorId = testMentor.id ∧
    ((updateSessionStatus testSession testMentor SessionStatus.completed
        none 300000).state.2.stats.totalSessions =
      testMentor.stats.totalSessions + 1 ∧
    (updateSessionStatus testSession testMentor SessionStatus.completed
        none 300000).state.2.stats.totalHours =
      testMentor.stats.totalHours + completedChargedDuration
        ((updateSessionStatus testSession testMentor
          SessionStatus.completed none 300000).state.1) / 60 ∧
    (updateSessionStatus
        ((updateSessionStatus testSession testMentor
          SessionStatus.completed none 300000).state.1)
        ((updateSessionStatus testSession testMentor
          SessionStatus.completed none 300000).state.2)
        SessionStatus.completed none 360000).state.2.stats.totalSessions =
      testMentor.stats.totalSessions + 2) :=
  ⟨rfl,
    completed_update_increments_mentor_stats testSession testMentor none
      none 300000 360000 rfl⟩

/-- Bumping one career adds its weight to that career's score and
leaves every other career's score unchanged. -/
theorem lookupScore_bump (sc : List (String × Nat)) (career x : String)
    (w : Nat) :
    lookupScore (bump sc career w) x =
      lookupScore sc x + (if career = x then w else 0) := by
  induction sc with
  | nil =>
    simp only [bump, lookupScore]
    split_ifs <;> simp
  | cons hd tl ih =>
    obtain ⟨c, s⟩ := hd
    simp only [bump]
    by_cases h1 : c = career
    · subst h1
      simp only [if_pos rfl, lookupScore]
      split_ifs with h2 <;> simp_all
    · simp only [if_neg h1, lookupScore]
      split_ifs with h2 <;> simp_all

/-- Folding `bump` over an option's career list adds the weight once
per occurrence of the career. -/
theorem lookupScore_foldl_bump (careers : List String)
    (sc : List (String × Nat)) (w : Nat) (x : String) :
    lookupScore (careers.foldl (fun acc c => bump acc c w) sc) x =
      lookupScore sc x + w * careers.count x := by
  induction careers generalizing sc with
  | nil => simp
  | cons c cs ih =>
    simp only [List.foldl_cons, ih, lookupScore_bump, List.count_cons]
    by_cases h : c = x
    · subst h
      simp
      ring
    · simp [h]

/-- One answer adds exactly its `answerContribution` to each career. -/
theorem lookupScore_applyAnswer (sc : List (String × Nat)) (a : Answer)
    (x : String) :
    lookupScore (applyAnswer sc a) x =
      lookupScore sc x + answerContribution a x := by
  simp only [applyAnswer, answerContribution]
  cases hq : careerQuestions.find? (fun q => q.id == a.questionId) with
  | none => simp
  | some q =>
    cases ho : q.options[a.selectedOption]? with
    | none => simp [ho]
    | some opt => simp [ho, lookupScore_foldl_bump]

/-- Folding a list of answers adds the sum of their contributions. -/
theorem lookupScore_foldl_applyAnswer (answers : List Answer)
    (sc : List (String × Nat)) (x : String) :
    lookupScore (answers.foldl applyAnswer sc) x =
      lookupScore sc x +
        (answers.map (fun a => answerContribution a x)).sum := by
  induction answers generalizing sc with
  | nil => simp
  | cons a as ih =>
    simp only [List.foldl_cons, List.map_cons, List.sum_cons, ih,
      lookupScore_applyAnswer]
    omega

/-- Elements of an insertion are the inserted element or old elements. -/
theorem mem_insertDesc (x y : String × Nat) (l : List (String × Nat))
    (h : y ∈ insertDesc x l) : y = x ∨ y ∈ l := by
  induction l with
  | nil => simpa [insertDesc] using h
  | cons hd tl ih =>
    simp only [insertDesc] at h
    split_ifs at h with hc
    · rcases List.mem_cons.1 h with h1 | h2
      · exact Or.inl h1
      · exact Or.inr h2
    · rcases List.mem_cons.1 h with h1 | h2
      · exact Or.inr (h1 ▸ List.mem_cons_self hd tl)
      · rcases ih h2 with h3 | h4
        · exact Or.inl h3
        · exact Or.inr (List.mem_cons_of_mem hd h4)

/-- Insertion preserves the descending-by-score invariant. -/
theorem insertDesc_sorted (x : String × Nat) (l : List (String × Nat))
    (h : l.Pairwise (fun p q => q.2 ≤ p.2)) :
    (insertDesc x l).Pairwise (fun p q => q.2 ≤ p.2) := by
  induction l with
  | nil => simp [insertDesc]
  | cons hd tl ih =>
    rcases List.pairwise_cons.1 h with ⟨hhd, htl⟩
    simp only [insertDesc]
    split_ifs with hc
    · refine List.pairwise_cons.2 ⟨?_, h⟩
      intro z hz
      rcases List.mem_cons.1 hz with rfl | hz2
      · exact hc
      · exact le_trans (hhd z hz2) hc
    · refine List.pairwise_cons.2 ⟨?_, ih htl⟩
      intro z hz
      rcases mem_insertDesc x z tl hz with rfl | hz2
      · exact le_of_not_le hc
      · exact hhd z hz2

/-- The sort used by the quiz route is descending by score. -/
theorem sortDesc_sorted (l : List (String × Nat)) :
    (sortDesc l).Pairwise (fun p q => q.2 ≤ p.2) := by
  unfold sortDesc
  induction l with
  | nil => simp
  | cons hd tl ih => exact insertDesc_sorted hd _ ih

/-- C8: quiz scoring adds, for each submitted answer resolving to a
valid question and option, the option's weight to the running score of
every career tag on that option (`answerContribution` sums); the route
output is sorted descending by score and holds at most 5 entries; and
on answers [(q1, opt0), (q2, opt0)] the first recommended career is
"Engineering" with score 6. -/
theorem quiz_scoring_behavior :
    (submitQuiz [{ questionId := 1, selectedOption := 0 },
        { questionId := 2, selectedOption := 0 }]).head? =
      some ("Engineering", 6) ∧
    (∀ (answers : List Answer) (career : String),
      lookupScore (computeScores answers) career =
        (answers.map (fun a => answerContribution a career)).sum) ∧
    (∀ answers : List Answer,
      (submitQuiz answers).Pairwise (fun p q => q.2 ≤ p.2) ∧
      (submitQuiz answers).length ≤ 5) := by
  refine ⟨?_, ?_, ?_⟩
  · rfl
  · intro answers career
    simpa [computeScores, lookupScore] using
      lookupScore_foldl_applyAnswer answers [] career
  · intro answers
    constructor
    · exact ((sortDesc_sorted (computeScores answers)).sublist
        (List.take_sublist 5 _))
    · simp [submitQuiz]

end Gem18
